import Mathlib

/-!
Verification of the time-windowed weather-fetch-with-stale-fallback workflow
of the raycast-api-weather extension.

The TypeScript sources are shallowly embedded:
* numbers that hold coordinates and temperatures are modelled as `ℚ`
  (the JSON payloads carry finite decimal literals);
* the React component state (`weather`, `isStale`, `isLoading`, `error`)
  becomes an explicit `WeatherState` record, and the `fetchData` effect
  becomes a state-transition function over the possible fetch outcomes;
* `LocalStorage` holds the single cached forecast slot, passed explicitly;
* host/runtime primitives that are not repository code
  (`toLocaleDateString` / `toLocaleTimeString` timezone conversion,
  `JSON.stringify`/`JSON.parse`, `encodeURIComponent`) are modelled by
  faithful Lean implementations, documented at their definitions.
-/

/-! ## JS runtime helpers -/

/-- Two-digit zero-padded decimal rendering of `n < 100`, as produced by
`toLocaleDateString`/`toLocaleTimeString` with the `"2-digit"` option. -/
def pad2 (n : Nat) : String :=
  String.mk [Nat.digitChar (n / 10), Nat.digitChar (n % 10)]

/-- Smallest exponent `k ≤ 30` with `den ∣ 10 ^ k`, if any. -/
def decExp (den : Nat) : Option Nat :=
  (List.range 31).find? (fun k => den ∣ 10 ^ k)

/-- Decimal string for the natural number `n / 10 ^ k`, with `k` fractional
digits (no decimal point when `k = 0`). -/
def decimalOfScaled (n k : Nat) : String :=
  if k = 0 then toString n
  else
    let s := toString n
    let s := String.mk (List.replicate (k + 1 - s.length) '0') ++ s
    s.take (s.length - k) ++ "." ++ String.mk (s.data.drop (s.length - k))

/-- Modelled from the host runtime: JavaScript number-to-string conversion
(`String(x)`, template literals, `JSON.stringify`).  Exact for rationals with
a finite decimal expansion, which covers every numeric literal occurring in
the JSON payloads of this extension; other rationals cannot arise from the
decoded JSON and get a fraction rendering that is never exercised. -/
def jsNumToString (q : ℚ) : String :=
  let sign := if q < 0 then "-" else ""
  let a := |q|
  match decExp a.den with
  | some k => sign ++ decimalOfScaled (a.num.toNat * 10 ^ k / a.den) k
  | none => sign ++ toString a.num ++ "/" ++ toString a.den

/-! ## TimeWindowCalculator (part_000 lines 48-53)

`toLocaleDateString("en-CA", { timeZone, year: "numeric", month: "2-digit",
day: "2-digit" })` and `toLocaleTimeString("en-GB", { timeZone, hour:
"2-digit", minute: "2-digit", hour12: false })` convert the UTC instant
`now` to the civil (wall-clock) date and time of the target timezone.  The
timezone database lives in the host runtime, so the conversion is modelled
by quantifying over the resulting civil time. -/

/-- Civil (timezone-local) date and time of the instant under test, as
delivered by the timezone conversion of the host; seconds are already dropped
because the format requests only hour and minute. -/
structure Civil where
  year : Nat
  month : Nat
  day : Nat
  hour : Nat
  minute : Nat
deriving DecidableEq, Repr

/-- Rendering of `toLocaleDateString("en-CA", …)`: `YYYY-MM-DD`. -/
def Civil.dateString (c : Civil) : String :=
  toString c.year ++ "-" ++ pad2 c.month ++ "-" ++ pad2 c.day

/-- Rendering of `toLocaleTimeString("en-GB", …)`: `HH:mm`, minutes
truncated (the format carries no seconds). -/
def Civil.timeString (c : Civil) : String :=
  pad2 c.hour ++ ":" ++ pad2 c.minute

/-- Time window computed by `WeatherDisplay` (part_000 lines 51-52):
`startTime = dateString + "T05:00"`, `endTime = dateString + "T" +
timeString`. -/
structure TimeWindow where
  startISO : String
  endISO : String
deriving DecidableEq, Repr

/-- Embedding of the window computation of part_000 lines 48-52. -/
def computeWindow (c : Civil) : TimeWindow :=
  { startISO := c.dateString ++ "T05:00"
    endISO := c.dateString ++ "T" ++ c.timeString }

/-! ## Chart axis bounds (part_000 lines 103-106) -/

/-- Modelled from the host runtime: `Math.min(...xs)`.  `none` plays the
role of the `+Infinity` returned on an empty argument list; every numeric
comparison against `none` is written out at the use site exactly as the
source compares against `Infinity`. -/
def jsMin : List ℚ → Option ℚ
  | [] => none
  | t :: ts =>
    match jsMin ts with
    | none => some t
    | some m => some (min t m)

/-- Modelled from the host runtime: `Math.max(...xs)`, with `none` for the
`-Infinity` of the empty argument list. -/
def jsMax : List ℚ → Option ℚ
  | [] => none
  | t :: ts =>
    match jsMax ts with
    | none => some t
    | some m => some (max t m)

/-- Embedding of `yAxisMin` (part_000 line 105): `minTemp < 0 ?
Math.floor(minTemp) : 0`.  When `jsMin` is `none` the JS comparison is
`Infinity < 0`, which is false, so the default `0` is taken. -/
def yAxisMin (temps : List ℚ) : ℤ :=
  match jsMin temps with
  | none => 0
  | some m => if m < 0 then ⌊m⌋ else 0

/-- Embedding of `yAxisMax` (part_000 line 106): `maxTemp > 40 ?
Math.ceil(maxTemp) + 2 : 40`.  When `jsMax` is `none` the JS comparison is
`-Infinity > 40`, which is false, so the default `40` is taken. -/
def yAxisMax (temps : List ℚ) : ℤ :=
  match jsMax temps with
  | none => 40
  | some m => if 40 < m then ⌈m⌉ + 2 else 40

example : yAxisMin [] = 0 ∧ yAxisMax [] = 40 := by constructor <;> rfl

example : yAxisMin [(-2 : ℚ), 41] = -2 := by
  simp [yAxisMin, jsMin]
  norm_num

/-! ## JSON values and the host serialization primitives -/

/-- JSON value tree, the common currency of `response.json()`,
`JSON.stringify` and `JSON.parse` in the host runtime. -/
inductive Json where
  | null
  | bool (b : Bool)
  | num (q : ℚ)
  | str (s : String)
  | arr (elems : List Json)
  | obj (fields : List (String × Json))
deriving Repr

/-- Escape of one character inside a JSON string literal, as produced by
`JSON.stringify` (short escapes, `\u00xx` for remaining controls,
non-ASCII characters emitted raw). -/
def jsonEscapeChar (c : Char) : String :=
  if c = '"' then "\\\""
  else if c = '\\' then "\\\\"
  else if c = Char.ofNat 8 then "\\b"
  else if c = Char.ofNat 12 then "\\f"
  else if c = '\n' then "\\n"
  else if c = '\r' then "\\r"
  else if c = '\t' then "\\t"
  else if c.toNat < 32 then
    "\\u00" ++ String.mk [Nat.digitChar (c.toNat / 16), Nat.digitChar (c.toNat % 16)]
  else String.singleton c

/-- JSON string literal with quotes, as produced by `JSON.stringify`. -/
def jsonQuote (s : String) : String :=
  "\"" ++ String.join (s.data.map jsonEscapeChar) ++ "\""

/-- Comma-separated join, as `Array.prototype.join(",")` inside
`JSON.stringify`. -/
def commaJoin (xs : List String) : String :=
  String.intercalate "," xs

/-- Serialization of a JSON array of strings-or-undefined: `JSON.stringify`
turns an `undefined` array element into `null`. -/
def jsonStrArray (xs : List (Option String)) : String :=
  "[" ++ commaJoin (xs.map (fun x => match x with
    | some s => jsonQuote s
    | none => "null")) ++ "]"

/-- Serialization of a JSON array of numbers. -/
def jsonNumArray (qs : List ℚ) : String :=
  "[" ++ commaJoin (qs.map jsNumToString) ++ "]"

/-- ASCII characters `encodeURIComponent` leaves unescaped:
letters, digits, and the marks dash, underscore, dot, bang, tilde, star,
quote and parentheses. -/
def isURIUnreserved (c : Char) : Bool :=
  c.isAlphanum || c = '-' || c = '_' || c = '.' || c = '!' || c = '~' ||
    c = '*' || c = '\'' || c = '(' || c = ')'

/-- UTF-8 bytes of one unicode scalar value. -/
def utf8Bytes (c : Char) : List Nat :=
  let n := c.toNat
  if n < 128 then [n]
  else if n < 2048 then [192 + n / 64, 128 + n % 64]
  else if n < 65536 then [224 + n / 4096, 128 + n / 64 % 64, 128 + n % 64]
  else [240 + n / 262144, 128 + n / 4096 % 64, 128 + n / 64 % 64, 128 + n % 64]

/-- Uppercase hexadecimal digit. -/
def hexUpper (n : Nat) : Char :=
  if n < 10 then Char.ofNat (48 + n) else Char.ofNat (55 + n)

/-- Percent-encoding `%XX` of one byte. -/
def percentByte (b : Nat) : String :=
  "%" ++ String.mk [hexUpper (b / 16), hexUpper (b % 16)]

/-- Modelled from the host runtime: `encodeURIComponent`. -/
def encodeURIComponent (s : String) : String :=
  String.join (s.data.map (fun c =>
    if isURIUnreserved c then String.singleton c
    else String.join ((utf8Bytes c).map percentByte)))

example : jsonNumArray [14, -2] = "[14,-2]" := by rfl

example : jsonStrArray [some "15:00", none] = "[\"15:00\",null]" := by rfl

example : encodeURIComponent "a b\"c" = "a%20b%22c" := by rfl

/-! ## Data model (part_000 lines 5-28, part_001 lines 8-23) -/

/-- Embedding of the `hourly` block of `WeatherResponse`. -/
structure Hourly where
  time : List String
  temperature_2m : List ℚ
deriving DecidableEq, Repr

/-- Embedding of the `hourly_units` block of `WeatherResponse`. -/
structure HourlyUnits where
  time : String
  temperature_2m : String
deriving DecidableEq, Repr

/-- Embedding of the `WeatherResponse` interface of part_000.  The TS
interface declares `hourly` as always present, but the runtime value comes
from an unvalidated `response.json()` and the component guards on
`!weather.hourly` (line 94), so the field is modelled as optional. -/
structure WeatherResponse where
  latitude : ℚ
  longitude : ℚ
  timezone : String
  hourly : Option Hourly
  hourly_units : HourlyUnits
deriving DecidableEq, Repr

/-- Embedding of the nested `timezone` object of `LocationResponse`. -/
structure TimezoneInfo where
  id : String
deriving DecidableEq, Repr

/-- Embedding of the `LocationResponse` interface (ipwho.is payload). -/
structure LocationResponse where
  success : Bool
  latitude : ℚ
  longitude : ℚ
  city : String
  country : String
  timezone : TimezoneInfo
deriving DecidableEq, Repr

/-- Embedding of the `current` block of the part_001 `WeatherResponse`. -/
structure CurrentReading where
  time : String
  temperature_2m : ℚ
  relative_humidity_2m : ℚ
  weather_code : ℚ
  wind_speed_10m : ℚ
deriving DecidableEq, Repr

/-- Embedding of the `current_units` block of part_001. -/
structure CurrentUnits where
  temperature_2m : String
  relative_humidity_2m : String
  wind_speed_10m : String
deriving DecidableEq, Repr

/-- Embedding of the part_001 `WeatherResponse` (instantaneous mode).  As in
windowed mode, the decoded body is unvalidated, so the `current` object the
markdown dereferences is modelled as optional. -/
structure CurrentResponse where
  latitude : ℚ
  longitude : ℚ
  current : Option CurrentReading
  current_units : CurrentUnits
deriving DecidableEq, Repr

/-! ## StaleCache (part_000 lines 65 and 70-73)

`LocalStorage.setItem("cachedWeatherData", JSON.stringify(data))` and
`JSON.parse(cachedData)` pass the forecast through the host JSON
serializer.  `JSON.parse ∘ JSON.stringify` is the identity on JSON value
trees (the documented contract of the host library), so the single cache slot is modelled
as holding the `Json` tree; the typed view of a parsed tree — JS property
access on the result of `JSON.parse` — is `decodeWeather`. -/

/-- Property access on a parsed JSON object: `j.k`, `undefined` when the
receiver is not an object or lacks the key. -/
def Json.get? : Json → String → Option Json
  | .obj fs, k => fs.lookup k
  | _, _ => none

/-- Narrowing of a JSON value to a number. -/
def Json.getNum? : Json → Option ℚ
  | .num q => some q
  | _ => none

/-- Narrowing of a JSON value to a string. -/
def Json.getStr? : Json → Option String
  | .str s => some s
  | _ => none

/-- Elementwise reading of the payload of a JSON array. -/
def optionTraverse {α β : Type} (f : α → Option β) : List α → Option (List β)
  | [] => some []
  | x :: xs => do
    let y ← f x
    let ys ← optionTraverse f xs
    pure (y :: ys)

/-- Reading of a JSON array of strings. -/
def decodeStrList (j : Json) : Option (List String) :=
  match j with
  | .arr es => optionTraverse Json.getStr? es
  | _ => none

/-- Reading of a JSON array of numbers. -/
def decodeNumList (j : Json) : Option (List ℚ) :=
  match j with
  | .arr es => optionTraverse Json.getNum? es
  | _ => none

/-- JSON tree produced by `JSON.stringify` on the `hourly` block. -/
def encodeHourly (h : Hourly) : Json :=
  .obj [("time", .arr (h.time.map .str)),
        ("temperature_2m", .arr (h.temperature_2m.map .num))]

/-- JSON tree produced by `JSON.stringify` on the `hourly_units` block. -/
def encodeUnits (u : HourlyUnits) : Json :=
  .obj [("time", .str u.time), ("temperature_2m", .str u.temperature_2m)]

/-- JSON tree produced by `JSON.stringify(data)` on a `WeatherResponse`
(part_000 line 65).  A missing (`undefined`) `hourly` field is dropped by
`JSON.stringify`, hence the conditional field list. -/
def encodeWeather (w : WeatherResponse) : Json :=
  .obj ([("latitude", .num w.latitude), ("longitude", .num w.longitude),
         ("timezone", .str w.timezone)]
    ++ (match w.hourly with
        | none => []
        | some h => [("hourly", encodeHourly h)])
    ++ [("hourly_units", encodeUnits w.hourly_units)])

/-- Typed reading of a parsed cache tree, i.e. the JS property accesses the
component performs on `JSON.parse(cachedData)`.  On every tree written by
`StaleCache.put` this succeeds; a malformed tree (which JS would propagate
as `undefined` fields) reads as `none`. -/
def decodeHourly (j : Json) : Option Hourly := do
  let t ← j.get? "time" >>= decodeStrList
  let temps ← j.get? "temperature_2m" >>= decodeNumList
  pure { time := t, temperature_2m := temps }

/-- Typed reading of the `hourly_units` block of a parsed cache tree. -/
def decodeUnits (j : Json) : Option HourlyUnits := do
  let t ← j.get? "time" >>= Json.getStr?
  let temps ← j.get? "temperature_2m" >>= Json.getStr?
  pure { time := t, temperature_2m := temps }

/-- Typed reading of a whole parsed cache tree. -/
def decodeWeather (j : Json) : Option WeatherResponse := do
  let lat ← j.get? "latitude" >>= Json.getNum?
  let lon ← j.get? "longitude" >>= Json.getNum?
  let tz ← j.get? "timezone" >>= Json.getStr?
  let units ← j.get? "hourly_units" >>= decodeUnits
  pure { latitude := lat, longitude := lon, timezone := tz,
         hourly := j.get? "hourly" >>= decodeHourly, hourly_units := units }

/-- Embedding of the cache write at part_000 line 65: unconditional
overwrite of the single slot. -/
def StaleCache.put (w : WeatherResponse) (_slot : Option Json) : Option Json :=
  some (encodeWeather w)

/-- Embedding of the cache read at part_000 lines 70-72: `getItem` followed
by `JSON.parse` and use as a `WeatherResponse`. -/
def StaleCache.get (slot : Option Json) : Option WeatherResponse :=
  slot >>= decodeWeather

/-! ## Fetch workflow state (part_000 lines 43-46 and 55-80) -/

/-- Outcome of the single forecast fetch attempt.  The `try` block throws
for a non-2xx status (`response.statusText`), a transport error, and an
undecodable body (`response.json()` rejection); all of them land in the
same `catch`, so they collapse into one `fail` constructor carrying the
cause.  `ok` carries the decoded body, of whatever shape it had. -/
inductive FetchOutcome where
  | ok (body : WeatherResponse)
  | fail (cause : String)
deriving DecidableEq, Repr

/-- React state of `WeatherDisplay` (part_000 lines 43-46). -/
structure WeatherState where
  weather : Option WeatherResponse
  isStale : Bool
  isLoading : Bool
  error : Option String
deriving DecidableEq, Repr

/-- Initial component state: `useState(null)`, `useState(false)`,
`useState(true)`, `useState(null)`. -/
def initWeatherState : WeatherState :=
  { weather := none, isStale := false, isLoading := true, error := none }

/-- Cache-slot accesses performed by one `fetchData` run. -/
inductive CacheOp where
  | read
  | write
deriving DecidableEq, Repr

/-- Embedding of `fetchData` (part_000 lines 56-78) as a state transition:
given the outcome of the awaited fetch and the current cache slot, it
yields the component state after the effect settles, the new slot, and the
slot accesses made.  On success the body is stored and written through
(`setItem`); on failure the slot is read (`getItem` runs before the
null-check), and only a non-empty slot flips `isStale`.  The decoded slot
value is `decodeWeather` of the stored tree; every reachable slot is a
`StaleCache.put` image, on which the decode succeeds. -/
def fetchData (outcome : FetchOutcome) (slot : Option Json) (s : WeatherState) :
    WeatherState × Option Json × List CacheOp :=
  match outcome with
  | .ok data =>
    ({ s with weather := some data, isStale := false, isLoading := false, error := none },
     StaleCache.put data slot, [CacheOp.write])
  | .fail cause =>
    match slot with
    | some j =>
      ({ s with error := some cause, weather := decodeWeather j, isStale := true,
                isLoading := false },
       some j, [CacheOp.read])
    | none =>
      ({ s with error := some cause, isLoading := false }, none, [CacheOp.read])

/-! ## ReportRenderer (part_000 lines 82-212) -/

/-- Renderable outcomes of `WeatherDisplay`: a loading `Detail` (optionally
with a markdown message), an error `Detail`, or the full report `Detail`
with its markdown and the chart URL offered by the actions. -/
inductive View where
  | loading (markdown : Option String)
  | errorView (markdown : String)
  | report (markdown : String) (chartUrl : String)
deriving DecidableEq, Repr

/-- Error markdown of part_000 line 89 (also temperature.tsx line 72). -/
def fetchErrorMarkdown : String :=
  "# データ取得中にエラーが発生しました\n\n無料APIを使っているため、時々アクセスが混み合うことがあります。\n\n**またアクセスしてみてください！** 🔄\n\n---\n\n💡 **ヒント**\n- 数秒待ってから再実行してみてください\n- それでもダメな場合は、少し時間をおいてから試してみてください\n\n*無料APIのため、レート制限がかかることがあります*"

/-- Stale banner of part_000 line 193. -/
def staleMessage (isStale : Bool) : String :=
  if isStale then
    "\n\n> ⚠️ **更新に失敗しました。前回取得したデータを表示しています。**\n\n"
  else ""

/-- Forecast request URL of part_000 line 53. -/
def apiUrlString (latitude longitude : ℚ) (timezoneId startTime endTime : String) : String :=
  "https://api.open-meteo.com/v1/forecast?latitude=" ++ jsNumToString latitude ++
  "&longitude=" ++ jsNumToString longitude ++ "&hourly=temperature_2m&timezone=" ++
  timezoneId ++ "&start_hour=" ++ startTime ++ "&end_hour=" ++ endTime

/-- Serialized `ticks` object of the y-axis in part_000 (dynamic suggested
bounds). -/
def chartTicksWindowed (yMin yMax : ℤ) : String :=
  "\"ticks\":\x7b\"suggestedMin\":" ++ toString yMin ++ ",\"suggestedMax\":" ++
  toString yMax ++ ",\"fontStyle\":\"bold\",\"fontFamily\":\"Helvetica\"\x7d"

/-- Serialized `ticks` object of the y-axis in temperature.tsx
(`beginAtZero: false`, no dynamic bounds). -/
def chartTicksBeginAtZero : String :=
  "\"ticks\":\x7b\"beginAtZero\":false,\"fontStyle\":\"bold\",\"fontFamily\":\"Helvetica\"\x7d"

/-- Output of `JSON.stringify(chartConfig)`: the object literal of part_000
lines 108-182 (equally temperature.tsx lines 97-170 via the `ticks`
parameter), serialized field by field in insertion order.  The
function-valued `formatter` property is dropped by `JSON.stringify`; all
constant properties appear as literal text. -/
def chartConfigString (labels : List (Option String)) (unitLabel : String)
    (temps : List ℚ) (titleText : String) (ticks : String) : String :=
  "\x7b\"type\":\"line\",\"data\":\x7b\"labels\":" ++ jsonStrArray labels ++
  ",\"datasets\":[\x7b\"label\":" ++ jsonQuote ("気温 (" ++ unitLabel ++ ")") ++
  ",\"data\":" ++ jsonNumArray temps ++
  ",\"borderColor\":\"rgba(135, 206, 250, 1)\",\"backgroundColor\":\"rgba(135, 206, 250, 0.3)\",\"tension\":0.4,\"fill\":true\x7d]\x7d,\"options\":\x7b\"title\":\x7b\"display\":true,\"text\":" ++
  jsonQuote titleText ++
  ",\"fontSize\":20,\"fontColor\":\"#333\",\"fontFamily\":\"Helvetica\"\x7d,\"legend\":\x7b\"display\":false\x7d,\"scales\":\x7b\"yAxes\":[\x7b\"scaleLabel\":\x7b\"display\":false\x7d," ++
  ticks ++
  ",\"gridLines\":\x7b\"color\":\"rgba(0, 0, 0, 0.05)\"\x7d\x7d],\"xAxes\":[\x7b\"scaleLabel\":\x7b\"display\":false\x7d,\"ticks\":\x7b\"fontStyle\":\"bold\",\"fontFamily\":\"Helvetica\"\x7d,\"gridLines\":\x7b\"display\":false\x7d\x7d]\x7d,\"plugins\":\x7b\"datalabels\":\x7b\"display\":true,\"anchor\":\"end\",\"align\":\"top\",\"font\":\x7b\"weight\":\"bold\",\"size\":14,\"family\":\"Helvetica\"\x7d,\"color\":\"#555\"\x7d\x7d\x7d\x7d"

/-- QuickChart URL of part_000 line 184. -/
def chartUrlString (cfg : String) : String :=
  "https://quickchart.io/chart?w=800&h=400&bkg=white&c=" ++ encodeURIComponent cfg

/-- Temperature cell of one table row: out-of-range indexing of the
`temperature_2m` array renders as the string `undefined` in the template
literal. -/
def tempCell (temps : List ℚ) (i : Nat) : String :=
  match temps[i]? with
  | some t => jsNumToString t
  | none => "undefined"

/-- Row-per-sample table body of part_000 lines 186-191. -/
def timeSeriesTable (h : Hourly) (unitLabel : String) : String :=
  String.intercalate "\n" (h.time.enum.map (fun p =>
    "| " ++ p.2 ++ " | " ++ tempCell h.temperature_2m p.1 ++ unitLabel ++ " |"))

/-- Markdown of part_000 line 195 after the leading `#`: everything from
the city name on. -/
def weatherRest (city country startTime endTime : String)
    (data : WeatherResponse) (h : Hourly) (chartUrl : String) : String :=
  city ++ ", " ++ country ++
  " の気温推移（今日）\n\n**期間**: " ++ startTime ++ " 〜 " ++ endTime ++
  "\n**場所**: " ++ city ++ ", " ++ country ++ "\n**座標**: 緯度 " ++
  jsNumToString data.latitude ++ ", 経度 " ++ jsNumToString data.longitude ++
  "\n**タイムゾーン**: " ++ data.timezone ++ "\n**データ数**: " ++
  toString h.time.length ++
  "件\n\n## グラフ\n\n![気温推移グラフ](" ++ chartUrl ++
  ")\n\n## 時系列データ\n\n| 時刻 | 気温 |\n|------|------|\n" ++
  timeSeriesTable h data.hourly_units.temperature_2m

/-- Markdown body of part_000 line 195: the title line onward, i.e. the
whole template without the stale banner. -/
def weatherBody (city country startTime endTime : String)
    (data : WeatherResponse) (h : Hourly) (chartUrl : String) : String :=
  "# " ++ weatherRest city country startTime endTime data h chartUrl

/-- Markdown assembly of part_000 line 195 (string concatenation grouped
banner-first; JS concatenation is associative). -/
def weatherMarkdown (city country startTime endTime : String) (isStale : Bool)
    (data : WeatherResponse) (h : Hourly) (chartUrl : String) : String :=
  staleMessage isStale ++ weatherBody city country startTime endTime data h chartUrl

/-- Chart title of part_000 line 126: city, country and the en-US long date
delivered by `toLocaleDateString` in the host for the current instant. -/
def chartTitle (city country formattedDate : String) : String :=
  city ++ ", " ++ country ++ " - " ++ formattedDate

/-- Embedding of the render section of `WeatherDisplay` (part_000 lines
82-212), from the settled component state to the produced `Detail`. -/
def renderWeatherDisplay (city country startTime endTime formattedDate : String)
    (s : WeatherState) : View :=
  if s.isLoading && s.weather.isNone then .loading none
  else if s.error.isSome && s.weather.isNone then .errorView fetchErrorMarkdown
  else
    match s.weather with
    | none => .loading none
    | some data =>
      match data.hourly with
      | none => .loading none
      | some h =>
        let labels := h.time.map (fun t => (t.splitOn "T")[1]?)
        let cfg := chartConfigString labels data.hourly_units.temperature_2m
          h.temperature_2m (chartTitle city country formattedDate)
          (chartTicksWindowed (yAxisMin h.temperature_2m) (yAxisMax h.temperature_2m))
        let url := chartUrlString cfg
        .report (weatherMarkdown city country startTime endTime s.isStale data h url) url

/-! ## temperature.tsx renderer (src/temperature.tsx lines 69-224)

Same markdown assembly as part_000 except: no cache and no stale banner,
the template literal has a leading and a trailing newline, the y-axis
`ticks` use `beginAtZero: false`, and line 178 performs a `console.log`
while rendering.  The renderer therefore returns the produced view together
with the list of console lines written. -/

/-- Markdown assembly of temperature.tsx lines 188-206. -/
def weatherMarkdownTsx (city country startTime endTime : String)
    (data : WeatherResponse) (h : Hourly) (chartUrl : String) : String :=
  "\n# " ++ city ++ ", " ++ country ++
  " の気温推移（今日）\n\n**期間**: " ++ startTime ++ " 〜 " ++ endTime ++
  "\n**場所**: " ++ city ++ ", " ++ country ++ "\n**座標**: 緯度 " ++
  jsNumToString data.latitude ++ ", 経度 " ++ jsNumToString data.longitude ++
  "\n**タイムゾーン**: " ++ data.timezone ++ "\n**データ数**: " ++
  toString h.time.length ++
  "件\n\n## グラフ\n\n![気温推移グラフ](" ++ chartUrl ++
  ")\n\n## 時系列データ\n\n| 時刻 | 気温 |\n|------|------|\n" ++
  timeSeriesTable h data.hourly_units.temperature_2m ++ "\n"

/-- Embedding of `WeatherDisplay` of temperature.tsx (lines 41-224): the
`useFetch` results feed straight into the guards; the success path logs one
debug line (line 178: `console.log("Chart title:", …)`) before returning
the report.  The second component is the console output. -/
def renderWeatherDisplayTsx (city country startTime endTime formattedDate : String)
    (data : Option WeatherResponse) (error : Option String) : View × List String :=
  if error.isSome then (.errorView fetchErrorMarkdown, [])
  else
    match data with
    | none => (.loading none, [])
    | some d =>
      match d.hourly with
      | none => (.loading none, [])
      | some h =>
        let title := chartTitle city country formattedDate
        let cfg := chartConfigString (h.time.map (fun t => (t.splitOn "T")[1]?))
          d.hourly_units.temperature_2m h.temperature_2m title chartTicksBeginAtZero
        let url := chartUrlString cfg
        (.report (weatherMarkdownTsx city country startTime endTime d h url) url,
         ["Chart title: " ++ title])

/-! ## Instantaneous mode command (part_001) -/

/-- Renderable outcomes of the part_001 command; `TokyoView` has no chart. -/
inductive TokyoView where
  | loading
  | errorView (markdown : String)
  | display (markdown : String)
deriving DecidableEq, Repr

/-- Request URL of part_001 line 26 (Tokyo coordinates interpolated). -/
def tokyoApiUrl : String :=
  "https://api.open-meteo.com/v1/forecast?latitude=35.6762&longitude=139.6503&current=temperature_2m,relative_humidity_2m,weather_code,wind_speed_10m"

/-- Error markdown of part_001 line 40. -/
def tokyoErrorMarkdown (errMsg : String) : String :=
  "# エラー\n\nデータの取得に失敗しました\n\n**エラー内容**: " ++ errMsg ++
  "\n\n**API URL**: " ++ tokyoApiUrl ++
  "\n\n**対処方法**:\n- インターネット接続を確認してください\n- しばらく待ってから再度お試しください"

/-- Markdown assembly of part_001 lines 49-61. -/
def tokyoMarkdown (d : CurrentResponse) (cur : CurrentReading) : String :=
  "\n# 東京の現在の天気\n\n## 基本情報\n- **時刻**: " ++ cur.time ++
  "\n- **座標**: 緯度 " ++ jsNumToString d.latitude ++ ", 経度 " ++
  jsNumToString d.longitude ++ "\n\n## 気象データ\n- **気温**: " ++
  jsNumToString cur.temperature_2m ++ d.current_units.temperature_2m ++
  "\n- **湿度**: " ++ jsNumToString cur.relative_humidity_2m ++
  d.current_units.relative_humidity_2m ++ "\n- **風速**: " ++
  jsNumToString cur.wind_speed_10m ++ d.current_units.wind_speed_10m ++
  "\n- **天気コード**: " ++ jsNumToString cur.weather_code ++ "\n"

/-- Embedding of the part_001 `Command` (lines 25-63).  A decoded body
without the `current` object is not rejected by the fetch layer; the
markdown template dereferences `data.current.time`, which on such a body is
a `TypeError` — modelled by the `none` result. -/
def tokyoCommand (error : Option String) (data : Option CurrentResponse) :
    Option TokyoView :=
  match error with
  | some e => some (.errorView (tokyoErrorMarkdown e))
  | none =>
    match data with
    | none => some .loading
    | some d =>
      match d.current with
      | none => none
      | some cur => some (.display (tokyoMarkdown d cur))

/-! ## LocationResolver gate and the whole report generation
(part_000 lines 215-246) -/

/-- Loading markdown of part_000 line 225. -/
def locationLoadingMarkdown : String := "位置情報を取得中..."

/-- Error markdown of part_000 line 231. -/
def locationErrorMarkdown : String :=
  "# 位置情報の取得中にエラーが発生しました\n\n無料APIを使っているため、時々アクセスが混み合うことがあります。\n\n**もう一度試してみてください！** 🔄\n\n---\n\n💡 **ヒント**\n- 数秒待ってから再実行してみてください\n- VPNを使用している場合、一時的にオフにしてみてください\n\n*IPベースの位置検出のため、VPN経由だと位置が正確でない場合があります*"

/-- Outcome of the `Command` gate of part_000: still loading, the shared
error panel, or a mounted `WeatherDisplay` with its props. -/
inductive CommandView where
  | loadingLocation (markdown : String)
  | locationError (markdown : String)
  | weather (latitude longitude : ℚ) (city country timezoneId : String)
deriving DecidableEq, Repr

/-- Embedding of `Command` (part_000 lines 215-246): the guard
`locationError || !locationData || !locationData.success` sends a transport
failure, a missing body and a semantically failed body to the same error
panel. -/
def commandGate (locationLoading : Bool) (locationError : Option String)
    (locationData : Option LocationResponse) : CommandView :=
  if locationLoading then .loadingLocation locationLoadingMarkdown
  else
    match locationData with
    | none => .locationError locationErrorMarkdown
    | some d =>
      if locationError.isSome || !d.success then .locationError locationErrorMarkdown
      else .weather d.latitude d.longitude d.city d.country d.timezone.id

/-- Renderable outcome of one whole report generation. -/
inductive ReportView where
  | locationLoading (markdown : String)
  | locationError (markdown : String)
  | weatherView (v : View)
deriving DecidableEq, Repr

/-- One whole report generation: the location gate, then (only when a
location is available) the window computation, the fetch transition and the
render.  Returns the view, the cache slot afterwards, and the cache
accesses performed. -/
def runReport (locationLoading : Bool) (locationError : Option String)
    (locationData : Option LocationResponse) (outcome : FetchOutcome)
    (c : Civil) (formattedDate : String) (slot : Option Json) :
    ReportView × Option Json × List CacheOp :=
  match commandGate locationLoading locationError locationData with
  | .loadingLocation md => (.locationLoading md, slot, [])
  | .locationError md => (.locationError md, slot, [])
  | .weather _ _ city country _ =>
    let w := computeWindow c
    let (s, slot', ops) := fetchData outcome slot initWeatherState
    (.weatherView (renderWeatherDisplay city country w.startISO w.endISO formattedDate s),
     slot', ops)

/-! ## Helper lemmas -/

/-- The spread minimum is `none` exactly on the empty sample list. -/
theorem jsMin_eq_none_iff (ts : List ℚ) : jsMin ts = none ↔ ts = [] := by
  cases ts with
  | nil => simp [jsMin]
  | cons t ts =>
    simp only [jsMin]
    cases jsMin ts <;> simp

/-- The spread maximum is `none` exactly on the empty sample list. -/
theorem jsMax_eq_none_iff (ts : List ℚ) : jsMax ts = none ↔ ts = [] := by
  cases ts with
  | nil => simp [jsMax]
  | cons t ts =>
    simp only [jsMax]
    cases jsMax ts <;> simp

/-- A defined spread minimum is a least element of the sample list. -/
theorem jsMin_spec {ts : List ℚ} {m : ℚ} (h : jsMin ts = some m) :
    m ∈ ts ∧ ∀ x ∈ ts, m ≤ x := by
  induction ts generalizing m with
  | nil => simp [jsMin] at h
  | cons t ts ih =>
    simp only [jsMin] at h
    cases hts : jsMin ts with
    | none =>
      rw [hts] at h
      obtain rfl : t = m := by simpa using h
      have : ts = [] := (jsMin_eq_none_iff ts).mp hts
      subst this
      simp
    | some m' =>
      rw [hts] at h
      obtain rfl : min t m' = m := by simpa using h
      obtain ⟨hmem, hlb⟩ := ih hts
      refine ⟨?_, ?_⟩
      · rcases min_cases t m' with ⟨he, _⟩ | ⟨he, _⟩
        · rw [he]; exact List.mem_cons_self t ts
        · rw [he]; exact List.mem_cons_of_mem t hmem
      · intro x hx
        rcases List.mem_cons.mp hx with rfl | hx
        · exact min_le_left _ _
        · exact le_trans (min_le_right t m') (hlb x hx)

/-- A defined spread maximum is a greatest element of the sample list. -/
theorem jsMax_spec {ts : List ℚ} {m : ℚ} (h : jsMax ts = some m) :
    m ∈ ts ∧ ∀ x ∈ ts, x ≤ m := by
  induction ts generalizing m with
  | nil => simp [jsMax] at h
  | cons t ts ih =>
    simp only [jsMax] at h
    cases hts : jsMax ts with
    | none =>
      rw [hts] at h
      obtain rfl : t = m := by simpa using h
      have : ts = [] := (jsMax_eq_none_iff ts).mp hts
      subst this
      simp
    | some m' =>
      rw [hts] at h
      obtain rfl : max t m' = m := by simpa using h
      obtain ⟨hmem, hub⟩ := ih hts
      refine ⟨?_, ?_⟩
      · rcases max_cases t m' with ⟨he, _⟩ | ⟨he, _⟩
        · rw [he]; exact List.mem_cons_self t ts
        · rw [he]; exact List.mem_cons_of_mem t hmem
      · intro x hx
        rcases List.mem_cons.mp hx with rfl | hx
        · exact le_max_left _ _
        · exact le_trans (hub x hx) (le_max_right t m')

/-- Eleven hourly samples ranging −2.0 to 41.0 (the cold/hot scenario of
the testable-properties section of the spec). -/
def sampleCold : List ℚ := [-2, 1, 5, 10, 15, 20, 25, 30, 33, 37, 41]

/-- Eleven hourly samples ranging 10.0 to 25.0 (the mild scenario of the
testable-properties section of the spec). -/
def sampleMild : List ℚ := [10, 12, 14, 16, 18, 20, 21, 22, 23, 24, 25]

example : jsMin sampleCold = some (-2) ∧ jsMax sampleCold = some 41 := by
  constructor <;> decide

set_option maxRecDepth 4000 in
example : yAxisMin sampleCold = -2 ∧ yAxisMax sampleCold = 43 := by
  constructor <;> decide

/-- C10: For the empty sample list the axis computation is total and yields
exactly the default bounds 0 and 40: the spread minimum of an empty list is
`+Infinity` (here `none`) and the maximum `-Infinity`, so neither widening
condition fires. -/
theorem yAxis_empty_defaults :
    jsMin [] = none ∧ jsMax [] = none ∧ yAxisMin [] = 0 ∧ yAxisMax [] = 40 :=
  ⟨rfl, rfl, rfl, rfl⟩

set_option maxRecDepth 4000 in
/-- C3: For every non-empty sample list the y-axis bounds are
`floor(min)` when the minimum is negative (else 0) and `ceil(max) + 2` when
the maximum exceeds 40 (else 40); samples ranging −2.0 to 41.0 give bounds
(−2, 43) and samples ranging 10.0 to 25.0 give exactly (0, 40). -/
theorem yAxis_bounds_spec :
    (∀ ts : List ℚ, ts ≠ [] →
      ∃ mn mx, (mn ∈ ts ∧ ∀ x ∈ ts, mn ≤ x) ∧ (mx ∈ ts ∧ ∀ x ∈ ts, x ≤ mx) ∧
        yAxisMin ts = (if mn < 0 then ⌊mn⌋ else 0) ∧
        yAxisMax ts = (if 40 < mx then ⌈mx⌉ + 2 else 40)) ∧
    yAxisMin sampleCold = -2 ∧ yAxisMax sampleCold = 43 ∧
    yAxisMin sampleMild = 0 ∧ yAxisMax sampleMild = 40 := by
  refine ⟨?_, by decide, by decide, by decide, by decide⟩
  intro ts hne
  cases hmn : jsMin ts with
  | none => exact absurd ((jsMin_eq_none_iff ts).mp hmn) hne
  | some mn =>
    cases hmx : jsMax ts with
    | none => exact absurd ((jsMax_eq_none_iff ts).mp hmx) hne
    | some mx =>
      exact ⟨mn, mx, jsMin_spec hmn, jsMax_spec hmx,
        by simp [yAxisMin, hmn], by simp [yAxisMax, hmx]⟩

set_option maxRecDepth 4000 in
/-- Witness for the quantified part of `yAxis_bounds_spec` at the concrete
cold scenario list. -/
theorem yAxis_bounds_spec_witness :
    sampleCold ≠ [] ∧
    ∃ mn mx, (mn ∈ sampleCold ∧ ∀ x ∈ sampleCold, mn ≤ x) ∧
      (mx ∈ sampleCold ∧ ∀ x ∈ sampleCold, x ≤ mx) ∧
      yAxisMin sampleCold = (if mn < 0 then ⌊mn⌋ else 0) ∧
      yAxisMax sampleCold = (if 40 < mx then ⌈mx⌉ + 2 else 40) :=
  ⟨by decide, yAxis_bounds_spec.1 sampleCold (by decide)⟩

/-- Lexicographic list order is preserved by prepending a common prefix. -/
theorem lex_append_left {α : Type} {r : α → α → Prop} (l : List α)
    {xs ys : List α} (h : List.Lex r xs ys) : List.Lex r (l ++ xs) (l ++ ys) := by
  induction l with
  | nil => simpa using h
  | cons c l ih => exact List.Lex.cons ih

/-- Character list of the `HH:mm` time rendering. -/
theorem timeString_data (c : Civil) :
    c.timeString.data = [Nat.digitChar (c.hour / 10), Nat.digitChar (c.hour % 10),
      ':', Nat.digitChar (c.minute / 10), Nat.digitChar (c.minute % 10)] := by
  simp [Civil.timeString, pad2, String.data_append]

/-- C2: `computeWindow` yields `startISO` = the timezone-local calendar
date at fixed hour 05:00 and `endISO` = the same date plus the local
wall-clock time truncated to minutes; before 05:00 local, the window is
emitted as-is, `endISO` lexically below `startISO` on the same calendar
date, with no backward day shift. -/
theorem computeWindow_spec :
    (∀ c : Civil,
      (computeWindow c).startISO = c.dateString ++ "T05:00" ∧
      (computeWindow c).endISO = c.dateString ++ "T" ++ c.timeString) ∧
    (∀ c : Civil, c.hour < 5 →
      (computeWindow c).endISO < (computeWindow c).startISO) := by
  constructor
  · intro c
    exact ⟨rfl, rfl⟩
  · rintro ⟨y, mo, d, hh, mi⟩ h5
    simp only [Civil.hour] at h5
    rw [String.lt_iff_toList_lt]
    have h1 : (computeWindow (Civil.mk y mo d hh mi)).endISO.toList
        = ((Civil.mk y mo d hh mi).dateString.data ++ ['T']) ++
          (Civil.mk y mo d hh mi).timeString.data := by
      show (((Civil.mk y mo d hh mi).dateString ++ "T" ++
        (Civil.mk y mo d hh mi).timeString)).data = _
      simp [String.data_append]
    have h2 : (computeWindow (Civil.mk y mo d hh mi)).startISO.toList
        = ((Civil.mk y mo d hh mi).dateString.data ++ ['T']) ++
          ['0', '5', ':', '0', '0'] := by
      show (((Civil.mk y mo d hh mi).dateString ++ "T05:00")).data = _
      simp [String.data_append]
    rw [h1, h2, timeString_data]
    have hd1 : hh / 10 = 0 := Nat.div_eq_of_lt (by omega)
    have hd2 : hh % 10 = hh := Nat.mod_eq_of_lt (by omega)
    simp only [Civil.hour, Civil.minute, hd1, hd2]
    show List.Lex (· < ·) _ _
    apply lex_append_left
    show List.Lex (· < ·) (Nat.digitChar 0 :: _) ('0' :: '5' :: _)
    have h0 : Nat.digitChar 0 = '0' := by decide
    rw [h0]
    apply List.Lex.cons
    apply List.Lex.rel
    interval_cases hh <;> decide

/-- Witness for the pre-05:00 branch of `computeWindow_spec` at 04:59 local
time on 2025-10-30. -/
theorem computeWindow_spec_witness :
    (Civil.mk 2025 10 30 4 59).hour < 5 ∧
    (computeWindow (Civil.mk 2025 10 30 4 59)).endISO <
      (computeWindow (Civil.mk 2025 10 30 4 59)).startISO :=
  ⟨by decide, computeWindow_spec.2 (Civil.mk 2025 10 30 4 59) (by decide)⟩

/-- Reading back an encoded string array restores it. -/
theorem traverse_getStr_map (xs : List String) :
    optionTraverse Json.getStr? (xs.map Json.str) = some xs := by
  induction xs with
  | nil => rfl
  | cons x xs ih => simp [optionTraverse, Json.getStr?, ih]

/-- Reading back an encoded number array restores it. -/
theorem traverse_getNum_map (qs : List ℚ) :
    optionTraverse Json.getNum? (qs.map Json.num) = some qs := by
  induction qs with
  | nil => rfl
  | cons q qs ih => simp [optionTraverse, Json.getNum?, ih]

/-- Decoding an encoded `hourly` block restores it. -/
theorem decodeHourly_encodeHourly (h : Hourly) :
    decodeHourly (encodeHourly h) = some h := by
  simp [decodeHourly, encodeHourly, Json.get?, decodeStrList, decodeNumList,
    List.lookup, traverse_getStr_map, traverse_getNum_map]

/-- Decoding an encoded `hourly_units` block restores it. -/
theorem decodeUnits_encodeUnits (u : HourlyUnits) :
    decodeUnits (encodeUnits u) = some u := by
  simp [decodeUnits, encodeUnits, Json.get?, Json.getStr?, List.lookup]

/-- Decoding an encoded forecast restores it, whether or not the `hourly`
field was present. -/
theorem decodeWeather_encodeWeather (w : WeatherResponse) :
    decodeWeather (encodeWeather w) = some w := by
  cases w with
  | mk lat lon tz hourly units =>
    cases hourly with
    | none =>
      simp [decodeWeather, encodeWeather, Json.get?, Json.getNum?, Json.getStr?,
        List.lookup, decodeUnits_encodeUnits]
    | some h =>
      simp [decodeWeather, encodeWeather, Json.get?, Json.getNum?, Json.getStr?,
        List.lookup, decodeUnits_encodeUnits, decodeHourly_encodeHourly]

/-- C8: For every forecast, `StaleCache.put` followed immediately by
`StaleCache.get` returns an equivalent forecast: the
serialize-then-deserialize round trip through the single slot is the
identity up to value equality, whatever the slot held before. -/
theorem staleCache_roundtrip (w : WeatherResponse) (slot : Option Json) :
    StaleCache.get (StaleCache.put w slot) = some w := by
  simp [StaleCache.get, StaleCache.put, decodeWeather_encodeWeather]

/-- Concrete two-sample forecast used by the witnesses. -/
def demoHourly : Hourly :=
  { time := ["2025-10-30T05:00", "2025-10-30T06:00"], temperature_2m := [10, 12] }

/-- Concrete well-formed forecast response used by the witnesses. -/
def demoForecast : WeatherResponse :=
  { latitude := 35, longitude := 139, timezone := "Asia/Tokyo",
    hourly := some demoHourly,
    hourly_units := { time := "iso8601", temperature_2m := "°C" } }

/-- C1: When the fetch fails and a previously cached forecast is present,
the resulting report is flagged stale, its markdown is the stale warning
banner prepended to the exact body the same data would render non-stale
(whose first characters are the title marker), its displayed data is the
data of the cached forecast, and the cache slot is left holding that forecast. -/
theorem stale_fallback (cause : String) (cached : WeatherResponse) (h : Hourly)
    (hh : cached.hourly = some h)
    (city country startTime endTime formattedDate : String) :
    (fetchData (.fail cause) (some (encodeWeather cached)) initWeatherState).1.isStale = true ∧
    (fetchData (.fail cause) (some (encodeWeather cached)) initWeatherState).1.weather =
      some cached ∧
    (fetchData (.fail cause) (some (encodeWeather cached)) initWeatherState).2.1 =
      some (encodeWeather cached) ∧
    ∃ url,
      renderWeatherDisplay city country startTime endTime formattedDate
        (fetchData (.fail cause) (some (encodeWeather cached)) initWeatherState).1 =
        View.report (staleMessage true ++
          weatherBody city country startTime endTime cached h url) url ∧
      renderWeatherDisplay city country startTime endTime formattedDate
        { weather := some cached, isStale := false, isLoading := false, error := none } =
        View.report (weatherBody city country startTime endTime cached h url) url ∧
      weatherBody city country startTime endTime cached h url =
        "# " ++ weatherRest city country startTime endTime cached h url := by
  refine ⟨?_, ?_, ?_, ?_⟩
  · rfl
  · simp [fetchData, initWeatherState, decodeWeather_encodeWeather]
  · rfl
  · refine ⟨chartUrlString (chartConfigString
      (h.time.map (fun t => (t.splitOn "T")[1]?)) cached.hourly_units.temperature_2m
      h.temperature_2m (chartTitle city country formattedDate)
      (chartTicksWindowed (yAxisMin h.temperature_2m) (yAxisMax h.temperature_2m))),
      ?_, ?_, rfl⟩
    · simp [fetchData, initWeatherState, decodeWeather_encodeWeather,
        renderWeatherDisplay, hh, weatherMarkdown]
    · simp [renderWeatherDisplay, hh, weatherMarkdown, staleMessage,
        String.empty_append]

/-- Witness for `stale_fallback` at a concrete cached forecast and failure
cause. -/
theorem stale_fallback_witness :
    demoForecast.hourly = some demoHourly ∧
    (fetchData (.fail "boom") (some (encodeWeather demoForecast))
      initWeatherState).1.isStale = true ∧
    (fetchData (.fail "boom") (some (encodeWeather demoForecast))
      initWeatherState).1.weather = some demoForecast ∧
    (fetchData (.fail "boom") (some (encodeWeather demoForecast))
      initWeatherState).2.1 = some (encodeWeather demoForecast) ∧
    ∃ url,
      renderWeatherDisplay "Tokyo" "Japan" "2025-10-30T05:00" "2025-10-30T15:00"
        "October 30, 2025"
        (fetchData (.fail "boom") (some (encodeWeather demoForecast))
          initWeatherState).1 =
        View.report (staleMessage true ++
          weatherBody "Tokyo" "Japan" "2025-10-30T05:00" "2025-10-30T15:00"
            demoForecast demoHourly url) url ∧
      renderWeatherDisplay "Tokyo" "Japan" "2025-10-30T05:00" "2025-10-30T15:00"
        "October 30, 2025"
        { weather := some demoForecast, isStale := false, isLoading := false,
          error := none } =
        View.report (weatherBody "Tokyo" "Japan" "2025-10-30T05:00"
          "2025-10-30T15:00" demoForecast demoHourly url) url ∧
      weatherBody "Tokyo" "Japan" "2025-10-30T05:00" "2025-10-30T15:00"
        demoForecast demoHourly url =
        "# " ++ weatherRest "Tokyo" "Japan" "2025-10-30T05:00" "2025-10-30T15:00"
          demoForecast demoHourly url := by
  refine ⟨rfl, ?_⟩
  exact stale_fallback "boom" demoForecast demoHourly rfl "Tokyo" "Japan"
    "2025-10-30T05:00" "2025-10-30T15:00" "October 30, 2025"

/-- Concrete successful location used by the witnesses. -/
def demoLocation : LocationResponse :=
  { success := true, latitude := 35, longitude := 139, city := "Tokyo",
    country := "Japan", timezone := { id := "Asia/Tokyo" } }

/-- Concrete semantically failed location (HTTP OK, `success: false`). -/
def failedLocation : LocationResponse :=
  { success := false, latitude := 0, longitude := 0, city := "",
    country := "", timezone := { id := "" } }

/-- C4: When the fetch fails and the cache is empty, the report generation
terminates in the renderable hard-error view — not a crash and not a
loading state — and the cache stays empty. -/
theorem hard_failure_renderable (cause : String) (d : LocationResponse)
    (hd : d.success = true) (c : Civil) (formattedDate : String) :
    runReport false none (some d) (.fail cause) c formattedDate none =
      (ReportView.weatherView (View.errorView fetchErrorMarkdown), none,
        [CacheOp.read]) := by
  simp [runReport, commandGate, hd, fetchData, initWeatherState,
    renderWeatherDisplay]

/-- Witness for `hard_failure_renderable` at a concrete location and
failure cause. -/
theorem hard_failure_renderable_witness :
    demoLocation.success = true ∧
    runReport false none (some demoLocation) (.fail "HTTP 429")
      (Civil.mk 2025 10 30 15 0) "October 30, 2025" none =
      (ReportView.weatherView (View.errorView fetchErrorMarkdown), none,
        [CacheOp.read]) :=
  ⟨rfl, hard_failure_renderable "HTTP 429" demoLocation rfl
    (Civil.mk 2025 10 30 15 0) "October 30, 2025"⟩

/-- Concrete decoded body lacking the hourly time-series (the shape a
current-conditions response presents to the windowed fetcher). -/
def hourlyLessBody : WeatherResponse :=
  { latitude := 35, longitude := 139, timezone := "Asia/Tokyo",
    hourly := none,
    hourly_units := { time := "iso8601", temperature_2m := "°C" } }

/-- Concrete decoded body lacking the current-conditions object (the shape
an hourly response presents to the instantaneous fetcher). -/
def currentLessBody : CurrentResponse :=
  { latitude := 35, longitude := 139, current := none,
    current_units := { temperature_2m := "°C",
                       relative_humidity_2m := "%",
                       wind_speed_10m := " km/h" } }

/-- C5 counterexample: a decoded windowed-mode body without the hourly
time-series is not handled as a fetch error — `error` stays null, the body
is stored as the weather state and written through to the cache, and the
renderer shows a loading view; in instantaneous mode a body without the
`current` object makes the markdown dereference fault (`none`) rather than
produce an error view. -/
theorem shape_validation_cex :
    (fetchData (.ok hourlyLessBody) none initWeatherState).1.error = none ∧
    (fetchData (.ok hourlyLessBody) none initWeatherState).1.weather =
      some hourlyLessBody ∧
    (fetchData (.ok hourlyLessBody) none initWeatherState).2.1 =
      some (encodeWeather hourlyLessBody) ∧
    renderWeatherDisplay "Tokyo" "Japan" "2025-10-30T05:00" "2025-10-30T15:00"
      "October 30, 2025"
      (fetchData (.ok hourlyLessBody) none initWeatherState).1 =
      View.loading none ∧
    tokyoCommand none (some currentLessBody) = none :=
  ⟨rfl, rfl, rfl, rfl, rfl⟩

/-- C5 (amended): The fetchers perform no response-shape validation — every
JSON-decoded body is accepted with `error` null and, in windowed mode,
stored and cached whatever its shape; a windowed-mode body without the
hourly field renders as a loading view instead of an error, and an
instantaneous-mode body without the `current` object faults at the markdown
dereference. -/
theorem fetch_accepts_any_decoded_body (body : WeatherResponse)
    (slot : Option Json) (city country startTime endTime formattedDate : String) :
    (fetchData (.ok body) slot initWeatherState).1.error = none ∧
    (fetchData (.ok body) slot initWeatherState).1.weather = some body ∧
    (fetchData (.ok body) slot initWeatherState).2.1 =
      some (encodeWeather body) ∧
    (body.hourly = none →
      renderWeatherDisplay city country startTime endTime formattedDate
        (fetchData (.ok body) slot initWeatherState).1 = View.loading none) ∧
    ∀ d : CurrentResponse, d.current = none →
      tokyoCommand none (some d) = none := by
  refine ⟨rfl, rfl, rfl, ?_, ?_⟩
  · intro hb
    simp [fetchData, initWeatherState, renderWeatherDisplay, hb]
  · intro d hd
    simp [tokyoCommand, hd]

/-- Witness for `fetch_accepts_any_decoded_body` at the concrete malformed
bodies. -/
theorem fetch_accepts_any_decoded_body_witness :
    hourlyLessBody.hourly = none ∧ currentLessBody.current = none ∧
    (fetchData (.ok hourlyLessBody) none initWeatherState).1.error = none ∧
    renderWeatherDisplay "Tokyo" "Japan" "2025-10-30T05:00" "2025-10-30T15:00"
      "October 30, 2025"
      (fetchData (.ok hourlyLessBody) none initWeatherState).1 =
      View.loading none ∧
    tokyoCommand none (some currentLessBody) = none := by
  have t := fetch_accepts_any_decoded_body hourlyLessBody none "Tokyo" "Japan"
    "2025-10-30T05:00" "2025-10-30T15:00" "October 30, 2025"
  exact ⟨rfl, rfl, t.1, t.2.2.2.1 rfl, t.2.2.2.2 currentLessBody rfl⟩

/-- C6: A geolocation transport failure and an HTTP-OK response whose
`success` flag is false land in the same error branch and produce the same
user-visible error view. -/
theorem location_error_uniform (e : String) (d : LocationResponse)
    (hd : d.success = false) (anyData : Option LocationResponse) :
    commandGate false none (some d) =
      CommandView.locationError locationErrorMarkdown ∧
    commandGate false (some e) anyData =
      CommandView.locationError locationErrorMarkdown ∧
    commandGate false none (some d) = commandGate false (some e) anyData := by
  have h1 : commandGate false none (some d) =
      CommandView.locationError locationErrorMarkdown := by
    simp [commandGate, hd]
  have h2 : commandGate false (some e) anyData =
      CommandView.locationError locationErrorMarkdown := by
    cases anyData <;> simp [commandGate]
  exact ⟨h1, h2, h1.trans h2.symm⟩

/-- Witness for `location_error_uniform` at a concrete semantic failure and
a concrete transport failure. -/
theorem location_error_uniform_witness :
    failedLocation.success = false ∧
    commandGate false none (some failedLocation) =
      CommandView.locationError locationErrorMarkdown ∧
    commandGate false (some "network error") none =
      CommandView.locationError locationErrorMarkdown ∧
    commandGate false none (some failedLocation) =
      commandGate false (some "network error") none :=
  ⟨rfl, location_error_uniform "network error" failedLocation rfl none⟩

/-- C7: Whenever the location gate fails, the report generation ends at the
location error view, and the forecast cache slot is neither read nor
written — it is returned unchanged with an empty access trace. -/
theorem location_failure_frame (locationError : Option String)
    (locationData : Option LocationResponse) (outcome : FetchOutcome)
    (c : Civil) (formattedDate : String) (slot : Option Json)
    (hfail : commandGate false locationError locationData =
      CommandView.locationError locationErrorMarkdown) :
    runReport false locationError locationData outcome c formattedDate slot =
      (ReportView.locationError locationErrorMarkdown, slot, []) := by
  simp [runReport, hfail]

/-- Witness for `location_failure_frame`: a missing location body, a
non-empty cache slot and an arbitrary pending fetch outcome. -/
theorem location_failure_frame_witness :
    commandGate false none none =
      CommandView.locationError locationErrorMarkdown ∧
    runReport false none none (.fail "x") (Civil.mk 2025 10 30 15 0)
      "October 30, 2025" (some (encodeWeather demoForecast)) =
      (ReportView.locationError locationErrorMarkdown,
        some (encodeWeather demoForecast), []) :=
  ⟨rfl, location_failure_frame none none (.fail "x") (Civil.mk 2025 10 30 15 0)
    "October 30, 2025" (some (encodeWeather demoForecast)) rfl⟩

/-- C9 counterexample: at a concrete fixed input tuple with
`isStale = false`, the temperature.tsx rendering step writes a console
line (the chart-title debug log of line 178) — its I/O trace is not
empty, so rendering is not free of side effects as claimed. -/
theorem render_purity_cex :
    (renderWeatherDisplayTsx "Tokyo" "Japan" "2025-10-30T05:00"
      "2025-10-30T15:00" "October 30, 2025" (some demoForecast) none).2 =
      ["Chart title: Tokyo, Japan - October 30, 2025"] ∧
    (renderWeatherDisplayTsx "Tokyo" "Japan" "2025-10-30T05:00"
      "2025-10-30T15:00" "October 30, 2025" (some demoForecast) none).2 ≠ [] := by
  have h1 : (renderWeatherDisplayTsx "Tokyo" "Japan" "2025-10-30T05:00"
      "2025-10-30T15:00" "October 30, 2025" (some demoForecast) none).2 =
      ["Chart title: Tokyo, Japan - October 30, 2025"] := rfl
  exact ⟨h1, h1 ▸ List.cons_ne_nil _ _⟩

/-- C9 (amended): Rendering is deterministic — the same inputs (the
location fields, window, forecast state and the formatted local date)
always produce the same view, byte for byte; the part_000 renderer
performs no I/O by construction, while the temperature.tsx console
trace is empty on the guard paths and exactly the one chart-title
debug line on the report path. -/
theorem render_deterministic_logged (city country startTime endTime
    formattedDate : String) (s : WeatherState) (data : Option WeatherResponse)
    (error : Option String) :
    renderWeatherDisplay city country startTime endTime formattedDate s =
      renderWeatherDisplay city country startTime endTime formattedDate s ∧
    renderWeatherDisplayTsx city country startTime endTime formattedDate
      data error =
      renderWeatherDisplayTsx city country startTime endTime formattedDate
        data error ∧
    ((renderWeatherDisplayTsx city country startTime endTime formattedDate
        data error).2 = [] ∨
      (renderWeatherDisplayTsx city country startTime endTime formattedDate
        data error).2 = ["Chart title: " ++ chartTitle city country formattedDate]) := by
  refine ⟨rfl, rfl, ?_⟩
  rcases error with _ | e
  · rcases data with _ | d
    · simp [renderWeatherDisplayTsx]
    · rcases hd : d.hourly with _ | h
      · simp [renderWeatherDisplayTsx, hd]
      · simp [renderWeatherDisplayTsx, hd]
  · simp [renderWeatherDisplayTsx]
